import Mathlib

/-!
Verification development for the horoskooppi_saas backend
(zodiac derivation, rate-limited horoscope generation, aspect
computation, city-coordinate resolution, profile update).

Shallow embedding conventions:
- Python floats are modelled as exact rationals (ℚ).
- Timestamps (datetime.utcnow) are modelled as ℕ seconds; the
  timedelta constants 24h / 7d / 30d become 86400 / 604800 / 2592000.
- Fallible Python code (raised exceptions) is modelled with
  Option / Except.
- The Pydantic layer is v2 (the schemas use `pattern=` Field kwargs and
  `from_attributes = True`, both Pydantic-v2-only spellings), so
  request-schema `pattern` constraints are enforced, and reading an
  attribute that a model class does not declare raises AttributeError.
-/

/-! ### zodiac_utils.py -/

/-- ZODIAC_DATES from zodiac_utils.py: ((start_month, start_day),
(end_month, end_day), sign). -/
def ZODIAC_DATES : List ((ℕ × ℕ) × (ℕ × ℕ) × String) :=
  [((1, 20), (2, 18), "aquarius"),
   ((2, 19), (3, 20), "pisces"),
   ((3, 21), (4, 19), "aries"),
   ((4, 20), (5, 20), "taurus"),
   ((5, 21), (6, 20), "gemini"),
   ((6, 21), (7, 22), "cancer"),
   ((7, 23), (8, 22), "leo"),
   ((8, 23), (9, 22), "virgo"),
   ((9, 23), (10, 22), "libra"),
   ((10, 23), (11, 21), "scorpio"),
   ((11, 22), (12, 21), "sagittarius"),
   ((12, 22), (1, 19), "capricorn")]

/-- The twelve zodiac signs (the keys of ZODIAC_INFO in zodiac_utils.py). -/
def twelve_signs : List String :=
  ["aries", "taurus", "gemini", "cancer", "leo", "virgo",
   "libra", "scorpio", "sagittarius", "capricorn", "aquarius", "pisces"]

/-- Result of `datetime.strptime(birth_date, "%Y-%m-%d")`: either the parse
raises ValueError (`unparseable`, which also stands for the empty/None
input rejected by the `if not birth_date` guard) or yields a calendar
date (year, month, day). -/
inductive BirthDateInput where
  | unparseable : BirthDateInput
  | parsed (year month day : ℕ) : BirthDateInput
deriving DecidableEq, Repr

/-- The per-entry test of the `for ... in ZODIAC_DATES` loop in
calculate_zodiac_sign: same-month ranges use start_day ≤ day ≤ end_day,
cross-month ranges use (month == start ∧ day ≥ start_day) ∨
(month == end ∧ day ≤ end_day). -/
def sign_matches (month day : ℕ) : ((ℕ × ℕ) × (ℕ × ℕ) × String) → Bool
  | ((sm, sd), (em, ed), _) =>
    if sm == em then month == sm && sd ≤ day && day ≤ ed
    else (month == sm && sd ≤ day) || (month == em && day ≤ ed)

/-- calculate_zodiac_sign (zodiac_utils.py, lines 43-88): the Capricorn
wraparound (month==12 ∧ day≥22) ∨ (month==1 ∧ day≤19) is checked before
the general loop over ZODIAC_DATES; an unparseable input returns None.
The year of a parsed date is never consulted. -/
def calculate_zodiac_sign : BirthDateInput → Option String
  | .unparseable => none
  | .parsed _year month day =>
    if (month == 12 && 22 ≤ day) || (month == 1 && day ≤ 19) then
      some "capricorn"
    else
      match ZODIAC_DATES.find? (sign_matches month day) with
      | some entry => some entry.2.2
      | none => none

/-- Lexicographic strictly-greater on (year, month, day); models
`date_obj > datetime.now()` in validate_birth_date (a midnight date
exceeds now exactly when its calendar triple exceeds today's). -/
def date_triple_gt (a b : ℕ × ℕ × ℕ) : Bool :=
  b.1 < a.1 || (a.1 == b.1 && (b.2.1 < a.2.1 || (a.2.1 == b.2.1 && b.2.2 < a.2.2)))

/-- validate_birth_date (zodiac_utils.py, lines 109-129), with "now"
passed in as today's calendar triple: false on unparseable input, on a
year before 1900, and on a future date. -/
def validate_birth_date (today : ℕ × ℕ × ℕ) : BirthDateInput → Bool
  | .unparseable => false
  | .parsed y m d => !(y < 1900) && !(date_triple_gt (y, m, d) today)

/-- Number of days of each month in some year (Feb includes the leap
day), used only to delimit the set of valid calendar dates. -/
def days_in_month (m : ℕ) : ℕ :=
  if m ∈ [1, 3, 5, 7, 8, 10, 12] then 31
  else if m ∈ [4, 6, 9, 11] then 30
  else if m == 2 then 29
  else 0

/-- A valid month/day pair of some calendar year. -/
def valid_md (m d : ℕ) : Bool :=
  1 ≤ m && m ≤ 12 && 1 ≤ d && d ≤ days_in_month m

/-! ### Rate limiting (main.py, lines 824-891) -/

/-- A persisted Horoscope row (models.py `Horoscope`): the fields the
rate limiter and the generation endpoint read/write. `created_at` is
seconds; the surrogate `id` column is omitted (never used by the logic
modelled here, beyond being echoed in responses). -/
structure Horoscope where
  user_id : ℕ
  prediction_type : String
  zodiac_sign : String
  content : String
  created_at : ℕ
deriving DecidableEq, Repr

/-- RATE_LIMIT_INTERVALS (main.py): seconds for daily/weekly/monthly. -/
def RATE_LIMIT_INTERVALS : List (String × ℕ) :=
  [("daily", 86400), ("weekly", 604800), ("monthly", 2592000)]

/-- `RATE_LIMIT_INTERVALS.get(prediction_type, timedelta(hours=24))`:
lookup with a 24-hour default. -/
def rate_interval (p : String) : ℕ :=
  match RATE_LIMIT_INTERVALS.find? (fun e => e.1 == p) with
  | some e => e.2
  | none => 86400

/-- The `created_at` of the newest Horoscope row for (user, type): the
`order_by(created_at.desc()).first()` query of check_rate_limit,
reduced to the maximal timestamp among matching rows. -/
def latest_created_at (db : List Horoscope) (uid : ℕ) (p : String) : Option ℕ :=
  ((db.filter (fun h => h.user_id == uid && h.prediction_type == p)).map
    (fun h => h.created_at)).max?

/-- The dict returned by check_rate_limit (minus the redundant
latest_horoscope_id, which merely echoes the row found). -/
structure RateStatus where
  can_generate : Bool
  is_first : Bool
  next_available_at : Option ℕ
  last_generated_at : Option ℕ
  message : String
deriving DecidableEq, Repr

/-- check_rate_limit (main.py, lines 831-891). -/
def check_rate_limit (db : List Horoscope) (uid : ℕ) (p : String) (now : ℕ) :
    RateStatus :=
  let interval := rate_interval p
  match latest_created_at db uid p with
  | none =>
    ⟨true, true, none, none, "Generate your first " ++ p ++ " prediction!"⟩
  | some t =>
    if now < t + interval then
      ⟨false, false, some (t + interval), some t,
        "Next " ++ p ++ " available after rate limit"⟩
    else
      ⟨true, false, none, some t, "Ready for new " ++ p ++ " prediction"⟩

/-! ### Gemini client (gemini_client.py) -/

/-- GeminiAPIError causes distinguished by gemini_client.generate_horoscope:
`not_initialized` ("Gemini API not initialized"), `empty_response`
("Gemini returned empty response"), `call_failed` (any other exception
from model.generate_content, wrapped). -/
inductive GeminiError where
  | not_initialized : GeminiError
  | empty_response : GeminiError
  | call_failed (msg : String) : GeminiError
deriving DecidableEq, Repr

/-- Outcome of the external `model.generate_content(prompt)` call:
either it raises (failure) or returns text (possibly empty). -/
inductive GenCallOutcome where
  | failure (msg : String) : GenCallOutcome
  | success (text : String) : GenCallOutcome
deriving DecidableEq, Repr

/-- The error/result skeleton of GeminiClient.generate_horoscope
(gemini_client.py, lines 119-134): if self.model is unset raise
not-initialized; if the call raises wrap it; if the returned text is
empty (falsy) raise empty-response; otherwise return the text.  No
fallback text is ever produced. -/
def generate_horoscope_llm (configured : Bool) (call : GenCallOutcome) :
    Except GeminiError String :=
  if !configured then .error .not_initialized
  else
    match call with
    | .failure m => .error (.call_failed m)
    | .success t => if t == "" then .error .empty_response else .ok t

/-- Python `a or b` for an optional string a: b when a is None or empty. -/
def py_or_str (a : Option String) (b : String) : String :=
  match a with
  | none => b
  | some s => if s == "" then b else s

/-- Response of POST /api/horoscopes/generate (main.py, lines 935-1051):
rate-limited (with next_available_at), 400 when no sign is available,
503 on GeminiAPIError, or success carrying the persisted sign/content. -/
inductive GenerateResult where
  | rate_limited (next_available_at : Option ℕ) : GenerateResult
  | bad_request : GenerateResult
  | service_error (e : GeminiError) : GenerateResult
  | generated (sign text : String) : GenerateResult
deriving DecidableEq, Repr

/-- generate_horoscope endpoint (main.py, lines 935-1051) as a function
of the store and the generation-call outcome; returns the response and
the committed store.  The persisted sign is
`current_user.zodiac_sign or horoscope_data.zodiac_sign`; only the
success path reaches `db.add`/`db.commit`. -/
def generate_endpoint (db : List Horoscope) (uid : ℕ)
    (profile_sign : Option String) (req_sign : String) (p : String)
    (now : ℕ) (configured : Bool) (call : GenCallOutcome) :
    GenerateResult × List Horoscope :=
  let rs := check_rate_limit db uid p now
  if !rs.can_generate then (.rate_limited rs.next_available_at, db)
  else
    let sign := py_or_str profile_sign req_sign
    if sign == "" then (.bad_request, db)
    else
      match generate_horoscope_llm configured call with
      | .error e => (.service_error e, db)
      | .ok text => (.generated sign text, db ++ [⟨uid, p, sign, text, now⟩])

/-- The HoroscopeCreate request schema (schemas.py, lines 91-93):
zodiac_sign needs length 3..20 and prediction_type must match
`^(daily|weekly|monthly)$`; Pydantic v2 enforces `pattern`, so an
unsupported period is rejected with 422 before the endpoint runs. -/
def horoscope_create_valid (sign p : String) : Bool :=
  3 ≤ sign.length && sign.length ≤ 20 &&
    (p == "daily" || p == "weekly" || p == "monthly")

/-! ### Aspect engine (gemini_client.py, _calculate_aspects, lines 398-480) -/

/-- One entry of the birth_chart / current_transits arrays handed to
_calculate_aspects: planet name, sign, degree-in-sign (always present in
the arrays _create_prompt builds), optional absolute longitude and
optional house. -/
structure ChartPos where
  planet : String
  sign : String
  degree : ℚ
  lon : Option ℚ
  house : Option ℕ
deriving DecidableEq, Repr

/-- The fixed 12-sign ordering starting at Aries used by the
longitude-approximation step. -/
def sign_order : List String :=
  ["Aries", "Taurus", "Gemini", "Cancer", "Leo", "Virgo",
   "Libra", "Scorpio", "Sagittarius", "Capricorn", "Aquarius", "Pisces"]

/-- `sign_order.index(sign) if sign in sign_order else 0`. -/
def sign_index (s : String) : ℕ :=
  if s ∈ sign_order then sign_order.indexOf s else 0

/-- The longitudes _calculate_aspects actually subtracts:
`get("lon", get("degree", 0))` for each body, then — when both raw
values are below 30 — the deliberate approximation
`signIndex*30 + degreeValue` using sign_order. -/
def effective_lons (t n : ChartPos) : ℚ × ℚ :=
  let tl := t.lon.getD t.degree
  let nl := n.lon.getD n.degree
  if tl < 30 ∧ nl < 30 then
    (sign_index t.sign * 30 + tl, sign_index n.sign * 30 + nl)
  else (tl, nl)

/-- `diff = abs(a - b); if diff > 180: diff = 360 - diff`. -/
def angle_diff (a b : ℚ) : ℚ :=
  let d := |a - b|
  if 180 < d then 360 - d else d

/-- aspect_definitions: (name, angle, orb_allowed). -/
def aspect_definitions : List (String × ℚ × ℚ) :=
  [("Conjunction", 0, 8), ("Sextile", 60, 4), ("Square", 90, 6),
   ("Trine", 120, 6), ("Opposition", 180, 8)]

/-- house_meanings: the fixed 12-entry house → life-area dictionary. -/
def house_meanings : List (ℕ × String) :=
  [(1, "Self and identity"), (2, "Finances and values"),
   (3, "Communication and learning"), (4, "Home and family"),
   (5, "Creativity and self-expression"), (6, "Work and health"),
   (7, "Partnerships and relationships"),
   (8, "Transformation and shared resources"),
   (9, "Higher learning and travel"), (10, "Career and public image"),
   (11, "Friends and aspirations"), (12, "Spirituality and subconscious")]

/-- `house_meanings.get(house, "General life areas")`. -/
def house_effect_label (h : ℕ) : String :=
  match house_meanings.find? (fun e => e.1 == h) with
  | some e => e.2
  | none => "General life areas"

/-- Round to the nearest integer, ties to even — Python's round(). -/
def round_half_even (y : ℚ) : ℤ :=
  if y - ⌊y⌋ < 1 / 2 then ⌊y⌋
  else if (1 : ℚ) / 2 < y - ⌊y⌋ then ⌊y⌋ + 1
  else if ⌊y⌋ % 2 == 0 then ⌊y⌋ else ⌊y⌋ + 1

/-- Python `round(x, 1)` on the exact rational model of the float. -/
def py_round1 (x : ℚ) : ℚ := (round_half_even (x * 10) : ℚ) / 10

/-- One emitted aspect dict: transit_planet, natal_planet, aspect name,
rounded angle, rounded orb, house_effect. -/
structure AspectRecord where
  transit_planet : String
  natal_planet : String
  aspect : String
  angle : ℚ
  orb : ℚ
  house_effect : String
deriving DecidableEq, Repr

/-- The inner `for aspect_name, aspect_angle, max_orb in
aspect_definitions` loop for one (transit, natal) pair: emit a record
exactly when `orb = abs(diff - aspect_angle) <= max_orb`, tagged with
the natal body's house label (`natal.get("house", 1)`). -/
def pair_aspects (t n : ChartPos) : List AspectRecord :=
  let tl := (effective_lons t n).1
  let nl := (effective_lons t n).2
  let diff := angle_diff tl nl
  aspect_definitions.filterMap (fun ad =>
    if |diff - ad.2.1| ≤ ad.2.2 then
      some ⟨t.planet, n.planet, ad.1, py_round1 diff, py_round1 (|diff - ad.2.1|),
            house_effect_label (n.house.getD 1)⟩
    else none)

/-- Sort key of `aspects.sort(key=lambda x: x["orb"])`. -/
def orb_le (a b : AspectRecord) : Prop := a.orb ≤ b.orb

instance : DecidableRel orb_le :=
  fun a b => inferInstanceAs (Decidable (a.orb ≤ b.orb))

/-- _calculate_aspects: the transit-major/natal-minor double loop, then a
stable sort ascending by the (rounded) orb, then the top-10 truncation.
Python's list.sort is a stable sort, as is insertionSort, so they agree
elementwise. -/
def calculate_aspects (natal transits : List ChartPos) : List AspectRecord :=
  let aspects :=
    transits.flatMap (fun t => natal.flatMap (fun n => pair_aspects t n))
  (List.insertionSort orb_le aspects).take 10

/-! ### City-coordinate resolution
  (astrology_service.py, _get_city_coordinates, lines 74-95) -/

/-- self.city_coordinates: the fixed name → (lat, lon) table, in
insertion order (Python dicts iterate in insertion order). -/
def city_coordinates : List (String × ℚ × ℚ) :=
  [("helsinki", 60.1699, 24.9384), ("tampere", 61.4978, 23.7610),
   ("turku", 60.4518, 22.2666), ("oulu", 65.0121, 25.4651),
   ("jyväskylä", 62.2415, 25.7209), ("lahti", 60.9827, 25.6612),
   ("kuopio", 62.8924, 27.6770), ("pori", 61.4851, 21.7974),
   ("joensuu", 62.6019, 29.7636), ("lappeenranta", 61.0586, 28.1887),
   ("stockholm", 59.3293, 18.0686), ("oslo", 59.9139, 10.7522),
   ("copenhagen", 55.6761, 12.5683), ("london", 51.5074, -0.1278),
   ("paris", 48.8566, 2.3522), ("berlin", 52.5200, 13.4050),
   ("madrid", 40.4168, -3.7038), ("rome", 41.9028, 12.4964),
   ("amsterdam", 52.3676, 4.9041), ("vienna", 48.2082, 16.3738),
   ("brussels", 50.8503, 4.3517), ("zurich", 47.3769, 8.5417),
   ("moscow", 55.7558, 37.6173), ("warsaw", 52.2297, 21.0122),
   ("prague", 50.0755, 14.4378), ("budapest", 47.4979, 19.0402),
   ("athens", 37.9838, 23.7275), ("lisbon", 38.7223, -9.1393),
   ("dublin", 53.3498, -6.2603), ("new york", 40.7128, -74.0060),
   ("los angeles", 34.0522, -118.2437), ("chicago", 41.8781, -87.6298),
   ("houston", 29.7604, -95.3698), ("phoenix", 33.4484, -112.0740),
   ("philadelphia", 39.9526, -75.1652), ("san antonio", 29.4241, -98.4936),
   ("san diego", 32.7157, -117.1611), ("dallas", 32.7767, -96.7970),
   ("san jose", 37.3382, -121.8863), ("tokyo", 35.6762, 139.6503),
   ("beijing", 39.9042, 116.4074), ("shanghai", 31.2304, 121.4737),
   ("hong kong", 22.3193, 114.1694), ("singapore", 1.3521, 103.8198),
   ("sydney", -33.8688, 151.2093), ("melbourne", -37.8136, 144.9631),
   ("auckland", -36.8485, 174.7633)]

/-- `city_name.lower()`; Char.toLower lowers the ASCII range, which
covers every comparison the table can decide (its keys are already
lowercase). -/
def ascii_lower (s : String) : String := String.mk (s.toList.map Char.toLower)

/-- Python str.strip(): drop leading and trailing whitespace. -/
def is_space_char (c : Char) : Bool :=
  c == ' ' || c == '\t' || c == '\n' || c == '\r'

/-- Python str.strip() on the character list. -/
def py_strip (s : String) : String :=
  String.mk (((s.toList.dropWhile is_space_char).reverse.dropWhile
    is_space_char).reverse)

/-- Python `needle in hay` for strings: contiguous-substring test. -/
def str_contains_seg (hay needle : String) : Bool :=
  hay.toList.tails.any (fun t => needle.toList.isPrefixOf t)

/-- The documented default location, Helsinki. -/
def helsinki_coords : ℚ × ℚ := (60.1699, 24.9384)

/-- _get_city_coordinates: empty (falsy) name → Helsinki; else lowercase
and strip, try the exact table lookup, then the first entry whose key
contains the name or is contained in it, else Helsinki — never an
error. -/
def get_city_coordinates (city_name : String) : ℚ × ℚ :=
  if city_name == "" then helsinki_coords
  else
    let c := py_strip (ascii_lower city_name)
    match city_coordinates.find? (fun e => e.1 == c) with
    | some e => e.2
    | none =>
      match city_coordinates.find?
          (fun e => str_contains_seg c e.1 || str_contains_seg e.1 c) with
      | some e => e.2
      | none => helsinki_coords

/-! ### Lazy client initialization (gemini_client.py, lines 33-60) -/

/-- The mutable fields of GeminiClient: `_initialized`,
`_api_key_available`, and whether `model` is set (non-None). -/
structure ClientState where
  initialized : Bool
  api_key_available : Bool
  model_set : Bool
deriving DecidableEq, Repr

/-- GeminiClient.__init__. -/
def initial_client_state : ClientState := ⟨false, false, false⟩

/-- _ensure_initialized, parametrized by the environment of that call:
whether GEMINI_API_KEY is set and whether genai model construction
succeeds.  Once `_initialized` is true it returns immediately, whatever
the environment now says. -/
def ensure_initialized (s : ClientState) (key_present init_ok : Bool) :
    ClientState :=
  if s.initialized then s
  else if !key_present then ⟨true, false, false⟩
  else if init_ok then ⟨true, true, true⟩
  else ⟨true, false, false⟩

/-- One generate_horoscope call viewed only through its initialization
effect: runs _ensure_initialized, then raises GeminiAPIError
("Gemini API not initialized") exactly when `self.model` is unset.
Returns the new client state and the raised? flag. -/
def generate_call_raises (s : ClientState) (key_present init_ok : Bool) :
    ClientState × Bool :=
  let s2 := ensure_initialized s key_present init_ok
  (s2, !s2.model_set)

/-- A sequence of generate_horoscope calls on one client instance, each
with its own environment (key_present, init_ok); returns the final
state and the per-call raised? flags. -/
def run_generate_calls (s : ClientState) :
    List (Bool × Bool) → ClientState × List Bool
  | [] => (s, [])
  | env :: rest =>
    let r := generate_call_raises s env.1 env.2
    let rest_run := run_generate_calls r.1 rest
    (rest_run.1, r.2 :: rest_run.2)

/-! ### Profile update (main.py, update_profile, lines 699-746;
  schemas.py, UserProfileUpdate, lines 38-51) -/

/-- The User columns update_profile touches or that the claims track. -/
structure UserRec where
  first_name : Option String
  last_name : Option String
  phone : Option String
  address : Option String
  full_name : Option String
  birth_date : Option String
  birth_time : Option String
  birth_city : Option String
  zodiac_sign : Option String
  prediction_language : String
deriving DecidableEq, Repr

/-- UserProfileUpdate (schemas.py, lines 38-51): exactly these six
optional fields; in particular NO birth_date, birth_city, zodiac_sign —
and also no prediction_language. -/
structure UserProfileUpdate where
  first_name : Option String
  last_name : Option String
  phone : Option String
  address : Option String
  full_name : Option String
  birth_time : Option String
deriving DecidableEq, Repr

/-- `if profile_data.x is not None: current_user.x = profile_data.x`. -/
def opt_update (cur new : Option String) : Option String :=
  match new with
  | none => cur
  | some v => some v

/-- The in-memory field assignments of main.py lines 720-732 (before the
commit is attempted).  Note line 731-732 assigns birth_time whenever one
is supplied, whether or not one was already set. -/
def apply_editable_fields (u : UserRec) (d : UserProfileUpdate) : UserRec :=
  { u with
    first_name := opt_update u.first_name d.first_name
    last_name := opt_update u.last_name d.last_name
    phone := opt_update u.phone d.phone
    address := opt_update u.address d.address
    full_name := opt_update u.full_name d.full_name
    birth_time := opt_update u.birth_time d.birth_time }

/-- update_profile (main.py, lines 699-746).  After the assignments of
lines 720-732, line 734 reads `profile_data.prediction_language` — a
field UserProfileUpdate does not declare (schemas.py lines 38-51).
Under Pydantic v2 (which this codebase targets: `pattern=` Field kwargs
and `from_attributes = True`) that attribute read raises
AttributeError, so execution never reaches `db.commit()` on line 743
and the request fails with HTTP 500. -/
def update_profile (u : UserRec) (d : UserProfileUpdate) :
    Except String UserRec :=
  let _in_memory := apply_editable_fields u d
  .error "AttributeError: prediction_language is not a UserProfileUpdate field"

/-- The state the database holds after an update_profile request:
get_db closes the session without commit on an unhandled exception, so
the in-memory assignments are discarded and the stored row is
unchanged. -/
def update_profile_persisted (u : UserRec) (d : UserProfileUpdate) : UserRec :=
  match update_profile u d with
  | .ok u2 => u2
  | .error _ => u

/-! ### Concurrent generate calls (main.py, lines 935-1051)

Each request runs check_rate_limit (the read) and only later, after the
Gemini call returns, `db.add` + `db.commit` (the write).  There is no
lock, transaction-level serialization, or uniqueness constraint on
(user_id, prediction_type, window) — models.py defines none — so two
requests from different server workers can interleave the two steps
arbitrarily.  A request is a two-phase process over the shared store. -/

/-- Phase of one in-flight generate request: not yet checked, checked
(with the eligibility it observed), or finished (success = a row was
inserted; failure = it returned the rate-limited response). -/
inductive GenPhase where
  | ready : GenPhase
  | checked (eligible : Bool) : GenPhase
  | finished (success : Bool) : GenPhase
deriving DecidableEq, Repr

/-- Two in-flight generate requests for the same (user, period) plus the
shared horoscope store. -/
structure ConcurrentState where
  proc0 : GenPhase
  proc1 : GenPhase
  db : List Horoscope
deriving DecidableEq, Repr

/-- One atomic step of a single request: the eligibility read, or the
insert (only if the earlier read said eligible). -/
def gen_step (uid : ℕ) (p : String) (now : ℕ) (sign text : String)
    (ph : GenPhase) (db : List Horoscope) : GenPhase × List Horoscope :=
  match ph with
  | .ready => (.checked (check_rate_limit db uid p now).can_generate, db)
  | .checked true => (.finished true, db ++ [⟨uid, p, sign, text, now⟩])
  | .checked false => (.finished false, db)
  | .finished b => (.finished b, db)

/-- Run an interleaving schedule: false steps request 0, true steps
request 1. -/
def run_schedule (uid : ℕ) (p : String) (now : ℕ) (sign text : String) :
    List Bool → ConcurrentState → ConcurrentState
  | [], s => s
  | pick :: rest, s =>
    if pick then
      let r := gen_step uid p now sign text s.proc1 s.db
      run_schedule uid p now sign text rest ⟨s.proc0, r.1, r.2⟩
    else
      let r := gen_step uid p now sign text s.proc0 s.db
      run_schedule uid p now sign text rest ⟨r.1, s.proc1, r.2⟩

instance : IsTotal AspectRecord orb_le := ⟨fun a b => le_total a.orb b.orb⟩

instance : IsTrans AspectRecord orb_le := ⟨fun _ _ _ h1 h2 => le_trans h1 h2⟩

/-! ### Helper lemmas -/

/-- The five-entry filterMap of pair_aspects written out as an explicit
append of per-aspect-kind singleton-or-empty blocks. -/
theorem pair_aspects_expand (t n : ChartPos) :
    pair_aspects t n =
      (let diff := angle_diff (effective_lons t n).1 (effective_lons t n).2
       let lbl := house_effect_label (n.house.getD 1)
       (if |diff - 0| ≤ 8 then
          [⟨t.planet, n.planet, "Conjunction", py_round1 diff,
            py_round1 (|diff - 0|), lbl⟩] else []) ++
       (if |diff - 60| ≤ 4 then
          [⟨t.planet, n.planet, "Sextile", py_round1 diff,
            py_round1 (|diff - 60|), lbl⟩] else []) ++
       (if |diff - 90| ≤ 6 then
          [⟨t.planet, n.planet, "Square", py_round1 diff,
            py_round1 (|diff - 90|), lbl⟩] else []) ++
       (if |diff - 120| ≤ 6 then
          [⟨t.planet, n.planet, "Trine", py_round1 diff,
            py_round1 (|diff - 120|), lbl⟩] else []) ++
       (if |diff - 180| ≤ 8 then
          [⟨t.planet, n.planet, "Opposition", py_round1 diff,
            py_round1 (|diff - 180|), lbl⟩] else [])) := by
  simp only [pair_aspects, aspect_definitions, List.filterMap_cons,
    List.filterMap_nil]
  split_ifs <;> simp

/-- Once `_initialized` is latched, further generate calls leave the
client state unchanged, and if no model was set every call raises. -/
theorem run_calls_latched (envs : List (Bool × Bool)) (s : ClientState)
    (hI : s.initialized = true) :
    (run_generate_calls s envs).1 = s ∧
    (s.model_set = false → ∀ b ∈ (run_generate_calls s envs).2, b = true) := by
  induction envs with
  | nil => exact ⟨rfl, fun _ _ h => absurd h (by simp [run_generate_calls])⟩
  | cons env rest ih =>
    have hstep : ensure_initialized s env.1 env.2 = s := by
      simp [ensure_initialized, hI]
    refine ⟨?_, ?_⟩
    · simp only [run_generate_calls, generate_call_raises, hstep]
      exact ih.1
    · intro hM b hb
      simp only [run_generate_calls, generate_call_raises, hstep,
        List.mem_cons] at hb
      rcases hb with h | h
      · simp [h, hM]
      · exact ih.2 hM b h

/-! ### Claim theorems -/

/-- C5: deriveSign (calculate_zodiac_sign) is deterministic (a pure
function of month/day — the year is ignored, first conjunct) and total
over valid month/day pairs, always landing in the twelve signs; the
documented boundary dates Dec 21 / Dec 22 and Jan 19 / Jan 20 land on
sagittarius/capricorn and capricorn/aquarius respectively; and
1992-10-02 maps to libra. -/
theorem C5_derive_sign_total_and_boundaries :
    (∀ y m d, calculate_zodiac_sign (.parsed y m d) =
      calculate_zodiac_sign (.parsed 0 m d)) ∧
    (∀ m, m < 13 → ∀ d, d < 32 → valid_md m d = true →
      (calculate_zodiac_sign (.parsed 0 m d)).isSome = true ∧
      ((calculate_zodiac_sign (.parsed 0 m d)).getD "") ∈ twelve_signs) ∧
    calculate_zodiac_sign (.parsed 1992 12 21) = some "sagittarius" ∧
    calculate_zodiac_sign (.parsed 1992 12 22) = some "capricorn" ∧
    calculate_zodiac_sign (.parsed 1993 1 19) = some "capricorn" ∧
    calculate_zodiac_sign (.parsed 1993 1 20) = some "aquarius" ∧
    calculate_zodiac_sign (.parsed 1992 10 2) = some "libra" := by
  refine ⟨fun y m d => rfl, ?_, by decide, by decide, by decide, by decide,
    by decide⟩
  decide

/-- C5 witness: the theorem applied at the concrete date 1992-10-02
(month 10, day 2). -/
theorem C5_derive_sign_total_and_boundaries_witness :
    (calculate_zodiac_sign (.parsed 0 10 2)).isSome = true ∧
    ((calculate_zodiac_sign (.parsed 0 10 2)).getD "") ∈ twelve_signs :=
  C5_derive_sign_total_and_boundaries.2.1 10 (by decide) 2 (by decide)
    (by decide)

/-- C2: with no record for (user, period) the check returns
can_generate = true and is_first = true (and "no record" is exactly what
latest_created_at = none means); with the latest record at time t it
returns can_generate = false and next_available_at = t + interval for
every time strictly between t and t + interval, and can_generate = true
at or after t + interval; the intervals for daily/weekly/monthly are
the fixed constants 24h/7d/30d in seconds. -/
theorem C2_check_eligibility :
    ∀ (db : List Horoscope) (uid : ℕ) (p : String) (now : ℕ),
      p = "daily" ∨ p = "weekly" ∨ p = "monthly" →
      (latest_created_at db uid p = none →
        (check_rate_limit db uid p now).can_generate = true ∧
        (check_rate_limit db uid p now).is_first = true) ∧
      (∀ t, latest_created_at db uid p = some t →
        (t < now → now < t + rate_interval p →
          (check_rate_limit db uid p now).can_generate = false ∧
          (check_rate_limit db uid p now).next_available_at =
            some (t + rate_interval p)) ∧
        (t + rate_interval p ≤ now →
          (check_rate_limit db uid p now).can_generate = true)) ∧
      (rate_interval "daily" = 86400 ∧ rate_interval "weekly" = 604800 ∧
        rate_interval "monthly" = 2592000) ∧
      (latest_created_at db uid p = none ↔
        db.filter (fun h => h.user_id == uid && h.prediction_type == p) = []) := by
  intro db uid p now _hp
  refine ⟨?_, ?_, ⟨by decide, by decide, by decide⟩, ?_⟩
  · intro h
    simp [check_rate_limit, h]
  · intro t ht
    constructor
    · intro _h1 h2
      simp [check_rate_limit, ht, h2]
    · intro h3
      have hnlt : ¬ now < t + rate_interval p := not_lt.mpr h3
      simp [check_rate_limit, ht, hnlt]
  · simp [latest_created_at, List.max?_eq_none_iff, List.map_eq_nil_iff]

/-- C2 witness: the theorem applied at an empty store and at a store
with one daily record at t = 100, probed at times 101 and 86500. -/
theorem C2_check_eligibility_witness :
    ((check_rate_limit [] 1 "daily" 0).can_generate = true ∧
      (check_rate_limit [] 1 "daily" 0).is_first = true) ∧
    ((check_rate_limit [⟨1, "daily", "leo", "x", 100⟩] 1 "daily" 101).can_generate
        = false ∧
      (check_rate_limit [⟨1, "daily", "leo", "x", 100⟩] 1 "daily"
        101).next_available_at = some 86500) ∧
    (check_rate_limit [⟨1, "daily", "leo", "x", 100⟩] 1 "daily"
      86500).can_generate = true :=
  ⟨(C2_check_eligibility [] 1 "daily" 0 (Or.inl rfl)).1 (by decide),
   ((C2_check_eligibility [⟨1, "daily", "leo", "x", 100⟩] 1 "daily" 101
      (Or.inl rfl)).2.1 100 (by decide)).1 (by decide) (by decide),
   ((C2_check_eligibility [⟨1, "daily", "leo", "x", 100⟩] 1 "daily" 86500
      (Or.inl rfl)).2.1 100 (by decide)).2 (by decide)⟩

/-- C8 counterexample: the claim says a birth date that does not lie
between year 1900 and now makes deriveSign fail with the error outcome;
but 1850-05-05 parses fine and calculate_zodiac_sign happily returns
taurus for it (the 1900..now range lives only in the separate — and
uncalled — validate_birth_date helper, which indeed returns false). -/
theorem C8_counterexample :
    calculate_zodiac_sign (.parsed 1850 5 5) = some "taurus" ∧
    validate_birth_date (2026, 10, 12) (.parsed 1850 5 5) = false := by
  decide

/-- C8 amended: deriveSign returns the error outcome (None) exactly for
unparseable input and otherwise returns a sign for every valid
month/day regardless of year; the 1900-to-now range check is the
separate validate_birth_date helper (false on out-of-range or
unparseable input); and an unsupported prediction period fails the
HoroscopeCreate schema pattern, so the generate endpoint is never
reached with a default interval. -/
theorem C8_invalid_input_amended :
    calculate_zodiac_sign .unparseable = none ∧
    (∀ y m, m < 13 → ∀ d, d < 32 → valid_md m d = true →
      (calculate_zodiac_sign (.parsed y m d)).isSome = true) ∧
    (∀ today y m d, y < 1900 →
      validate_birth_date today (.parsed y m d) = false) ∧
    (∀ today, validate_birth_date today .unparseable = false) ∧
    (∀ s p, p ≠ "daily" → p ≠ "weekly" → p ≠ "monthly" →
      horoscope_create_valid s p = false) := by
  refine ⟨rfl, ?_, ?_, fun _ => rfl, ?_⟩
  · have h : ∀ m, m < 13 → ∀ d, d < 32 → valid_md m d = true →
        (calculate_zodiac_sign (.parsed 0 m d)).isSome = true := by decide
    intro y m hm d hd hv
    have e : calculate_zodiac_sign (.parsed y m d) =
        calculate_zodiac_sign (.parsed 0 m d) := rfl
    rw [e]
    exact h m hm d hd hv
  · intro today y m d h
    simp [validate_birth_date, h]
  · intro s p h1 h2 h3
    simp [horoscope_create_valid, h1, h2, h3]

/-- C8 witness: the amended theorem at month 5 / day 5 of year 1850, at
today = (2026, 10, 12), and at the unsupported period "hourly". -/
theorem C8_invalid_input_amended_witness :
    (calculate_zodiac_sign (.parsed 1850 5 5)).isSome = true ∧
    validate_birth_date (2026, 10, 12) (.parsed 1850 5 5) = false ∧
    horoscope_create_valid "leo" "hourly" = false :=
  ⟨C8_invalid_input_amended.2.1 1850 5 (by decide) 5 (by decide) (by decide),
   C8_invalid_input_amended.2.2.1 (2026, 10, 12) 1850 5 5 (by decide),
   C8_invalid_input_amended.2.2.2.2 "leo" "hourly" (by decide) (by decide)
     (by decide)⟩

/-- C10: the generation client latches its initialization outcome: when
the first generate call on a fresh client finds GEMINI_API_KEY unset
(or model construction failing), that call raises, and every later call
raises too — whatever key availability the later environments offer —
because _ensure_initialized returns immediately once _initialized is
set and self.model stays None forever. -/
theorem C10_client_init_latched :
    ∀ (k i : Bool) (envs : List (Bool × Bool)),
      k = false ∨ i = false →
      (run_generate_calls initial_client_state ((k, i) :: envs)).1 =
        (⟨true, false, false⟩ : ClientState) ∧
      ∀ b ∈ (run_generate_calls initial_client_state ((k, i) :: envs)).2,
        b = true := by
  intro k i envs hk
  have hfirst : ensure_initialized initial_client_state k i =
      ⟨true, false, false⟩ := by
    rcases hk with h | h <;> subst h
    · simp [ensure_initialized, initial_client_state]
    · cases k <;> simp [ensure_initialized, initial_client_state]
  have hlatch := run_calls_latched envs ⟨true, false, false⟩ rfl
  constructor
  · simp only [run_generate_calls, generate_call_raises, hfirst]
    exact hlatch.1
  · intro b hb
    simp only [run_generate_calls, generate_call_raises, hfirst,
      List.mem_cons] at hb
    rcases hb with h | h
    · simp [h]
    · exact hlatch.2 rfl b h

/-- C10 witness: a first call with the key missing followed by two calls
in environments where the key is present and initialization would
succeed: all three raise. -/
theorem C10_client_init_latched_witness :
    (run_generate_calls initial_client_state
      [(false, true), (true, true), (true, true)]).1 =
      (⟨true, false, false⟩ : ClientState) ∧
    ((run_generate_calls initial_client_state
      [(false, true), (true, true), (true, true)]).2.getD 2 false) = true :=
  ⟨(C10_client_init_latched false true [(true, true), (true, true)]
      (Or.inl rfl)).1,
   (C10_client_init_latched false true [(true, true), (true, true)]
      (Or.inl rfl)).2
     ((run_generate_calls initial_client_state
       [(false, true), (true, true), (true, true)]).2.getD 2 false)
     (by decide)⟩

/-- C1: an unconfigured client, a failing call, or an empty response
each produce a typed GeminiError from generate_horoscope_llm; and
whenever the client errors, the endpoint persists nothing (the store it
commits is exactly the store it started from), returns no generated
text, and — when the request was eligible and a sign was available —
surfaces the typed error as the 503 service_error response. -/
theorem C1_no_fallback_on_failure :
    ∀ (db : List Horoscope) (uid : ℕ) (profile_sign : Option String)
      (req_sign p : String) (now : ℕ) (configured : Bool)
      (call : GenCallOutcome),
      (configured = false →
        generate_horoscope_llm configured call =
          Except.error GeminiError.not_initialized) ∧
      (∀ m, call = GenCallOutcome.failure m → configured = true →
        generate_horoscope_llm configured call =
          Except.error (GeminiError.call_failed m)) ∧
      (call = GenCallOutcome.success "" → configured = true →
        generate_horoscope_llm configured call =
          Except.error GeminiError.empty_response) ∧
      (∀ e, generate_horoscope_llm configured call = Except.error e →
        (generate_endpoint db uid profile_sign req_sign p now configured
          call).2 = db ∧
        (∀ s t, (generate_endpoint db uid profile_sign req_sign p now
          configured call).1 ≠ GenerateResult.generated s t) ∧
        ((check_rate_limit db uid p now).can_generate = true →
          py_or_str profile_sign req_sign ≠ "" →
          (generate_endpoint db uid profile_sign req_sign p now configured
            call).1 = GenerateResult.service_error e)) := by
  intro db uid profile_sign req_sign p now configured call
  refine ⟨?_, ?_, ?_, ?_⟩
  · rintro rfl; rfl
  · rintro m rfl rfl; rfl
  · rintro rfl rfl; rfl
  · intro e he
    cases hcg : (check_rate_limit db uid p now).can_generate
    · refine ⟨?_, ?_, ?_⟩ <;> simp [generate_endpoint, hcg]
    · cases hsign : (py_or_str profile_sign req_sign == "")
      · refine ⟨?_, ?_, ?_⟩ <;>
          simp [generate_endpoint, hcg, hsign, he]
      · have hs : py_or_str profile_sign req_sign = "" := by
          simpa [beq_iff_eq] using hsign
        refine ⟨?_, ?_, ?_⟩
        · simp [generate_endpoint, hcg, hsign]
        · simp [generate_endpoint, hcg, hsign]
        · intro _ hne
          exact absurd hs hne

/-- C1 witness: the theorem applied with an unconfigured client on an
eligible first request: the store stays empty and the response is the
typed not-initialized service error. -/
theorem C1_no_fallback_on_failure_witness :
    (generate_endpoint [] 1 (some "leo") "leo" "daily" 0 false
      (GenCallOutcome.success "x")).2 = [] ∧
    (generate_endpoint [] 1 (some "leo") "leo" "daily" 0 false
      (GenCallOutcome.success "x")).1 =
      GenerateResult.service_error GeminiError.not_initialized :=
  ⟨((C1_no_fallback_on_failure [] 1 (some "leo") "leo" "daily" 0 false
      (GenCallOutcome.success "x")).2.2.2 GeminiError.not_initialized
      rfl).1,
   ((C1_no_fallback_on_failure [] 1 (some "leo") "leo" "daily" 0 false
      (GenCallOutcome.success "x")).2.2.2 GeminiError.not_initialized
      rfl).2.2 rfl (by decide)⟩

/-- C6 counterexample: the claim says the persisted zodiac_sign always
equals the profile's stored sign and is never taken from request input;
but when the profile's sign is absent, the endpoint
(`current_user.zodiac_sign or horoscope_data.zodiac_sign`, main.py line
970) falls back to the request-supplied sign: with profile sign none
and request sign "leo" the call succeeds and persists "leo". -/
theorem C6_counterexample :
    (generate_endpoint [] 1 none "leo" "daily" 0 true
      (GenCallOutcome.success "hi")).1 =
      GenerateResult.generated "leo" "hi" ∧
    (generate_endpoint [] 1 none "leo" "daily" 0 true
      (GenCallOutcome.success "hi")).2 =
      [⟨1, "daily", "leo", "hi", 0⟩] ∧
    (none : Option String) ≠ some "leo" := by
  refine ⟨rfl, rfl, by simp⟩

/-- C6 amended: whenever the user's profile stores a non-empty zodiac
sign, every record the generate endpoint persists beyond the existing
store carries exactly that profile sign, regardless of the
request-supplied sign; only when the profile sign is absent or empty is
the request's sign used instead. -/
theorem C6_sign_from_profile_amended :
    ∀ (db : List Horoscope) (uid : ℕ) (s req_sign p : String) (now : ℕ)
      (configured : Bool) (call : GenCallOutcome),
      s ≠ "" →
      ∀ h ∈ (generate_endpoint db uid (some s) req_sign p now configured
        call).2, h ∈ db ∨ h.zodiac_sign = s := by
  intro db uid s req_sign p now configured call hs h hmem
  have hsign : py_or_str (some s) req_sign = s := by
    simp [py_or_str, hs]
  cases hcg : (check_rate_limit db uid p now).can_generate
  · simp [generate_endpoint, hcg] at hmem
    exact Or.inl hmem
  · have hbeq : (py_or_str (some s) req_sign == "") = false := by
      simp [hsign, hs]
    cases hllm : generate_horoscope_llm configured call with
    | error e =>
      simp only [generate_endpoint, hcg, hbeq, hllm, Bool.not_true,
        if_false] at hmem
      exact Or.inl hmem
    | ok text =>
      simp [generate_endpoint, hcg, hbeq, hllm] at hmem
      rcases hmem with hm | hm
      · exact Or.inl hm
      · rw [hm]
        exact Or.inr hsign

/-- C6 witness: the amended theorem applied with profile sign "libra"
and request sign "leo" on a fresh store: the (single) persisted record
carries "libra". -/
theorem C6_sign_from_profile_amended_witness :
    (⟨1, "daily", "libra", "hi", 0⟩ : Horoscope) ∈ ([] : List Horoscope) ∨
    (⟨1, "daily", "libra", "hi", 0⟩ : Horoscope).zodiac_sign = "libra" :=
  C6_sign_from_profile_amended [] 1 "libra" "leo" "daily" 0 true
    (GenCallOutcome.success "hi") (by decide)
    ⟨1, "daily", "libra", "hi", 0⟩ (by decide)

/-- C7: evaluation of the profile-update endpoint as written.  Every
call raises before commit (it reads the prediction_language attribute,
which UserProfileUpdate does not define), so the stored row — birth
fields included — is unchanged for every input; in particular a
birth_time supplied when one was initially absent is NOT persisted,
contrary to the claim's "may be supplied later if initially absent".
The in-memory assignment logic of lines 720-732 (last conjunct) would
moreover overwrite an already-set birth_time whenever one is supplied,
so the endpoint logic does not treat birth_time as write-once either. -/
theorem C7_update_profile_eval :
    (∀ (u : UserRec) (d : UserProfileUpdate),
      (update_profile u d).isOk = false ∧
      update_profile_persisted u d = u) ∧
    update_profile_persisted
      ⟨none, none, none, none, none, some "1992-10-02", none,
        some "Helsinki", some "libra", "fi"⟩
      ⟨none, none, none, none, none, some "12:00"⟩ =
      ⟨none, none, none, none, none, some "1992-10-02", none,
        some "Helsinki", some "libra", "fi"⟩ ∧
    (apply_editable_fields
      ⟨none, none, none, none, none, some "1992-10-02", some "12:00",
        some "Helsinki", some "libra", "fi"⟩
      ⟨none, none, none, none, none, some "13:00"⟩).birth_time =
      some "13:00" :=
  ⟨fun _ _ => ⟨rfl, rfl⟩, rfl, rfl⟩

/-- C3: the race at the failing input.  Two concurrent generate(u,
daily) calls on an empty history, interleaved check0-check1-insert0-
insert1 (schedule [0,1,0,1]), BOTH succeed and TWO records are created
in the same eligibility window — the code has no lock or uniqueness
constraint to prevent it — whereas the claim requires exactly 1 success
and 1 rate-limited response.  A sequential schedule [0,0,1,1] (the
single-worker behaviour) does satisfy the claim: 1 record, second call
rate-limited. -/
theorem C3_concurrent_double_insert :
    (run_schedule 1 "daily" 0 "leo" "hi" [false, true, false, true]
      ⟨GenPhase.ready, GenPhase.ready, []⟩).db =
      [⟨1, "daily", "leo", "hi", 0⟩, ⟨1, "daily", "leo", "hi", 0⟩] ∧
    (run_schedule 1 "daily" 0 "leo" "hi" [false, true, false, true]
      ⟨GenPhase.ready, GenPhase.ready, []⟩).proc0 =
      GenPhase.finished true ∧
    (run_schedule 1 "daily" 0 "leo" "hi" [false, true, false, true]
      ⟨GenPhase.ready, GenPhase.ready, []⟩).proc1 =
      GenPhase.finished true ∧
    (run_schedule 1 "daily" 0 "leo" "hi" [false, false, true, true]
      ⟨GenPhase.ready, GenPhase.ready, []⟩).db =
      [⟨1, "daily", "leo", "hi", 0⟩] ∧
    (run_schedule 1 "daily" 0 "leo" "hi" [false, false, true, true]
      ⟨GenPhase.ready, GenPhase.ready, []⟩).proc1 =
      GenPhase.finished false := by
  decide

/-- C9: city resolution is total and silent — every input resolves to
either a table entry or the Helsinki default, an exact (lowercased,
stripped) key match returns that entry, a name with neither an exact
nor a substring match in either direction returns the Helsinki default
without any error, the empty name returns the Helsinki default, and
the default is exactly (60.1699, 24.9384). -/
theorem C9_city_resolution :
    (∀ name : String,
      get_city_coordinates name = helsinki_coords ∨
      ∃ e ∈ city_coordinates, get_city_coordinates name = e.2) ∧
    (∀ (name : String) (e : String × ℚ × ℚ), name ≠ "" →
      city_coordinates.find?
        (fun x => x.1 == py_strip (ascii_lower name)) = some e →
      get_city_coordinates name = e.2) ∧
    (∀ name : String, name ≠ "" →
      city_coordinates.find?
        (fun x => x.1 == py_strip (ascii_lower name)) = none →
      city_coordinates.find? (fun x =>
        str_contains_seg (py_strip (ascii_lower name)) x.1 ||
        str_contains_seg x.1 (py_strip (ascii_lower name))) = none →
      get_city_coordinates name = helsinki_coords) ∧
    get_city_coordinates "" = helsinki_coords ∧
    helsinki_coords = (601699 / 10000, 249384 / 10000) := by
  refine ⟨?_, ?_, ?_, rfl, by norm_num [helsinki_coords]⟩
  · intro name
    by_cases h0 : name = ""
    · subst h0; exact Or.inl rfl
    · cases h1 : city_coordinates.find?
          (fun x => x.1 == py_strip (ascii_lower name)) with
      | some e =>
        exact Or.inr ⟨e, List.mem_of_find?_eq_some h1,
          by simp [get_city_coordinates, beq_iff_eq, h0, h1]⟩
      | none =>
        cases h2 : city_coordinates.find? (fun x =>
            str_contains_seg (py_strip (ascii_lower name)) x.1 ||
            str_contains_seg x.1 (py_strip (ascii_lower name))) with
        | some e =>
          exact Or.inr ⟨e, List.mem_of_find?_eq_some h2,
            by simp [get_city_coordinates, beq_iff_eq, h0, h1, h2]⟩
        | none =>
          exact Or.inl (by simp [get_city_coordinates, beq_iff_eq, h0, h1, h2])
  · intro name e hne hf
    simp [get_city_coordinates, beq_iff_eq, hne, hf]
  · intro name hne h1 h2
    simp [get_city_coordinates, beq_iff_eq, hne, h1, h2]

/-- C9 witness: the theorem's exact-match branch applied at "Tampere". -/
theorem C9_city_resolution_witness :
    get_city_coordinates "Tampere" = (61.4978, 23.7610) :=
  C9_city_resolution.2.1 "Tampere" ("tampere", 61.4978, 23.7610)
    (by decide) rfl

/-- C4: the aspect computation.  The final list is at most 10 long and
sorted ascending by the stored orb; the diff every pair is judged by is
reduced into [0, 180]; for each (transit, natal) pair and each of the
five aspect definitions exactly one record (tagged with the natal
body's house life-area label and carrying the two planet names) is
emitted into the pre-truncation list iff |diff − aspectAngle| ≤ maxOrb;
and everything in the final list comes from some pair's emission. -/
theorem C4_compute_aspects :
    ∀ (natal transits : List ChartPos),
      (calculate_aspects natal transits).length ≤ 10 ∧
      (calculate_aspects natal transits).Pairwise orb_le ∧
      (∀ a b : ℚ, |a - b| ≤ 360 →
        0 ≤ angle_diff a b ∧ angle_diff a b ≤ 180) ∧
      (∀ t ∈ transits, ∀ n ∈ natal,
        (∀ r ∈ pair_aspects t n,
          r.transit_planet = t.planet ∧ r.natal_planet = n.planet ∧
          r.house_effect = house_effect_label (n.house.getD 1) ∧
          r.aspect ∈ ["Conjunction", "Sextile", "Square", "Trine",
            "Opposition"]) ∧
        (∀ ad ∈ aspect_definitions,
          (pair_aspects t n).countP (fun r => r.aspect == ad.1) =
            if |angle_diff (effective_lons t n).1 (effective_lons t n).2 -
                ad.2.1| ≤ ad.2.2 then 1 else 0)) ∧
      (∀ r ∈ calculate_aspects natal transits,
        ∃ t ∈ transits, ∃ n ∈ natal, r ∈ pair_aspects t n) := by
  intro natal transits
  refine ⟨?_, ?_, ?_, ?_, ?_⟩
  · show ((List.insertionSort orb_le (transits.flatMap fun t =>
      natal.flatMap fun n => pair_aspects t n)).take 10).length ≤ 10
    rw [List.length_take]
    exact min_le_left _ _
  · exact List.Pairwise.sublist (List.take_sublist 10 _)
      (List.sorted_insertionSort orb_le _)
  · intro a b hab
    have habs : (0 : ℚ) ≤ |a - b| := abs_nonneg _
    by_cases h : (180 : ℚ) < |a - b|
    · have he : angle_diff a b = 360 - |a - b| := by simp [angle_diff, h]
      rw [he]
      constructor <;> linarith
    · have he : angle_diff a b = |a - b| := by simp [angle_diff, h]
      rw [he]
      constructor <;> linarith [not_lt.mp h]
  · intro t ht n hn
    constructor
    · intro r hr
      rw [pair_aspects_expand] at hr
      dsimp only at hr
      simp only [List.mem_append] at hr
      have hb : ∀ (c : Prop) (inst : Decidable c) (x : AspectRecord),
          r ∈ (if c then [x] else ([] : List AspectRecord)) → r = x := by
        intro c inst x hx
        split at hx <;> simp_all
      rcases hr with ((((h | h) | h) | h) | h) <;>
        · rw [hb _ _ _ h]
          exact ⟨rfl, rfl, rfl, by simp⟩
    · intro ad had
      have hmem : ad = ("Conjunction", (0 : ℚ), (8 : ℚ)) ∨
          ad = ("Sextile", 60, 4) ∨ ad = ("Square", 90, 6) ∨
          ad = ("Trine", 120, 6) ∨ ad = ("Opposition", 180, 8) := by
        simpa [aspect_definitions] using had
      rcases hmem with rfl | rfl | rfl | rfl | rfl <;>
        · dsimp only
          rw [pair_aspects_expand]
          dsimp only
          split_ifs <;> rfl
  · intro r hr
    have h2 : r ∈ transits.flatMap (fun t =>
        natal.flatMap fun n => pair_aspects t n) :=
      (List.perm_insertionSort orb_le _).mem_iff.mp
        ((List.take_sublist 10 _).subset hr)
    obtain ⟨t, ht, h3⟩ := List.mem_flatMap.mp h2
    obtain ⟨n, hn, h4⟩ := List.mem_flatMap.mp h3
    exact ⟨t, ht, n, hn, h4⟩

/-- C4 witness: the theorem applied at the spec's scenario — natal Sun
at absolute longitude 9.2° in house 1 and transit Sun at 135.0°:
diff = 125.8, orb 5.8 ≤ 6, so exactly one Trine record is emitted for
the pair (9.2 is written 92/10 since ℚ's decimal-literal constructor is
irreducible here). -/
theorem C4_compute_aspects_witness :
    (pair_aspects ⟨"Sun", "Leo", 15, some 135, none⟩
      ⟨"Sun", "Libra", 92 / 10, some (92 / 10), some 1⟩).countP
      (fun r => r.aspect == "Trine") = 1 ∧
    0 ≤ angle_diff 135 (92 / 10) ∧ angle_diff 135 (92 / 10) ≤ 180 := by
  refine ⟨?_, (C4_compute_aspects [] []).2.2.1 135 (92 / 10)
    (by rw [abs_of_nonneg (by norm_num)]; norm_num)⟩
  have h := ((C4_compute_aspects
      [⟨"Sun", "Libra", 92 / 10, some (92 / 10), some 1⟩]
      [⟨"Sun", "Leo", 15, some 135, none⟩]).2.2.2.1
      ⟨"Sun", "Leo", 15, some 135, none⟩ (by simp)
      ⟨"Sun", "Libra", 92 / 10, some (92 / 10), some 1⟩ (by simp)).2
      ("Trine", 120, 6) (by simp [aspect_definitions])
  have e1 : effective_lons (⟨"Sun", "Leo", 15, some 135, none⟩ : ChartPos)
      (⟨"Sun", "Libra", 92 / 10, some (92 / 10), some 1⟩ : ChartPos) =
      ((135 : ℚ), (92 / 10 : ℚ)) := by
    norm_num [effective_lons]
  have ha : |(135 : ℚ) - 92 / 10| = 1258 / 10 := by
    rw [abs_of_nonneg (by norm_num)]
    norm_num
  have e2 : angle_diff 135 (92 / 10) = 1258 / 10 := by
    simp only [angle_diff]
    rw [ha]
    norm_num
  have hc : |angle_diff
      (effective_lons (⟨"Sun", "Leo", 15, some 135, none⟩ : ChartPos)
        (⟨"Sun", "Libra", 92 / 10, some (92 / 10), some 1⟩ : ChartPos)).1
      (effective_lons (⟨"Sun", "Leo", 15, some 135, none⟩ : ChartPos)
        (⟨"Sun", "Libra", 92 / 10, some (92 / 10), some 1⟩ : ChartPos)).2 -
      (("Trine", (120 : ℚ), (6 : ℚ)) : String × ℚ × ℚ).2.1| ≤
      (("Trine", (120 : ℚ), (6 : ℚ)) : String × ℚ × ℚ).2.2 := by
    rw [e1]
    dsimp only
    rw [e2, abs_of_nonneg (by norm_num)]
    norm_num
  rw [if_pos hc] at h
  exact h
